import Mathlib

/-!
Shallow embedding of the xmlunittest library (file xmlunittest.py), a set of
XML assertion methods built on top of the lxml library. The lxml primitives
(XPath compilation and evaluation, document parsing, schema construction and
validation, file reading) are modelled as abstract oracle records; the code of
each assertion method is translated statement by statement into a pure Lean
function over those oracles. Python specifics that the code relies on are
modelled explicitly: dict construction with later-keys-overwriting, truthiness
of XPath results, len and set and iteration over results, and the three ways a
method can end (normal return, AssertionError from self.fail, ValueError, or a
propagated exception such as TypeError).
-/

/-- A single item of an XPath node-set result: an element (identified by the
object identity lxml gives it, modelled as a number, because Python equality
and set membership on elements is identity, not structural equality) or a
string (an lxml smart string, whose equality is by value). -/
inductive XItem where
  | elem (ident : Nat)
  | str (s : String)
deriving DecidableEq, Repr

/-- The possible results of evaluating a compiled lxml XPath expression on a
node: a node-set (a Python list of elements and smart strings), a boolean, a
number (modelled as an integer; only zero versus non-zero matters to this
code), or a string. -/
inductive XPathResult where
  | nodeset (items : List XItem)
  | bool (b : Bool)
  | num (n : Int)
  | str (s : String)
deriving DecidableEq, Repr

/-- An lxml element node, restricted to the observations the library makes:
tag name, text, attributes, number of children, and the nsmap of declared
namespace bindings (a None key stands for the default, unprefixed
namespace). -/
structure Node where
  tag : String
  text : Option String
  attrib : List (String × String)
  childrenCount : Nat
  nsmap : List (Option String × String)
deriving DecidableEq, Repr

/-- The distinct failure messages the library builds before calling
self.fail, one constructor per fail call site, carrying the data the message
interpolates from the failing situation. -/
inductive FailMsg where
  | xpathError (tag : String) (xpath : String) (err : String)
  | xpathNotFound (tag : String) (xpath : String)
  | tooManyResults (count : Nat) (tag : String) (xpath : String)
  | notUnique (tag : String) (xpath : String)
  | invalidValue (tag : String) (xpath : String) (value : XItem)
  | notValidDocument (err : String)
  | notValidPartial (err : String)
  | noElements
  | validationError (err : String)
deriving DecidableEq, Repr

/-- Outcome of running one assertion method: normal return with a value,
AssertionError raised by self.fail, ValueError raised by a raise statement,
or some other propagated Python exception (TypeError, a schema parse
error). -/
inductive PyResult (α : Type) where
  | ok (a : α)
  | assertFail (msg : FailMsg)
  | valueError (msg : String)
  | raised (msg : String)
deriving DecidableEq, Repr

/-- Python dict insertion: an existing key keeps its position and gets the new
value, a fresh key is appended at the end. -/
def dictInsert (d : List (String × String)) (k v : String) : List (String × String) :=
  if d.any fun p => p.1 = k then d.map fun p => if p.1 = k then (k, v) else p
  else d ++ [(k, v)]

/-- Python expression prefix-or-default as used in the namespaces dict
comprehension: None (and the empty string, both falsy) is replaced by the
default namespace label, any other prefix string is kept. -/
def orDefault (p : Option String) (dns : String) : String :=
  match p with
  | none => dns
  | some s => if s = "" then dns else s

/-- The namespaces dict built by build_xpath_expression and
build_xpath_expressions from node.nsmap: a Python dict comprehension over the
nsmap items, keyed by the prefix with the None key replaced by the default
label dns. -/
def buildNamespaces (nsmap : List (Option String × String)) (dns : String) :
    List (String × String) :=
  nsmap.foldl (fun d e => dictInsert d (orDefault e.1 dns) e.2) []

/-- Python truthiness of an XPath result, as tested by the statement
if not expression(node): an empty list, False, zero and the empty string are
falsy, everything else is truthy. -/
def truthy : XPathResult → Bool
  | .nodeset items => !items.isEmpty
  | .bool b => b
  | .num n => n != 0
  | .str s => s != ""

/-- Python len applied to an XPath result: defined for lists and strings,
TypeError (none) for booleans and numbers. -/
def pyLen : XPathResult → Option Nat
  | .nodeset items => some items.length
  | .str s => some s.length
  | .bool _ => none
  | .num _ => none

/-- Python len of set applied to an XPath result: the number of distinct
items of a list, the number of distinct characters of a string, TypeError
(none) for booleans and numbers. -/
def pySetLen : XPathResult → Option Nat
  | .nodeset items => some items.dedup.length
  | .str s => some s.toList.dedup.length
  | .bool _ => none
  | .num _ => none

/-- Python iteration over an XPath result, as used by for result in results:
a list yields its items, a string yields its characters as strings, booleans
and numbers raise TypeError (none). -/
def pyIter : XPathResult → Option (List XItem)
  | .nodeset items => some items
  | .str s => some (s.toList.map fun c => .str (String.mk [c]))
  | .bool _ => none
  | .num _ => none

/-- A compiled lxml XPath expression, as far as this library observes it: the
original path string (attribute path) and the namespaces dict it was compiled
against. -/
abbrev XExpr := String × List (String × String)

/-- The lxml XPath machinery as an oracle: compileErr reports the
XPathSyntaxError message raised by etree.XPath for a path and namespaces dict
(none when compilation succeeds), and eval runs a compiled expression on a
node, either raising an XPathEvalError message or returning a result. -/
structure XPathEngine where
  compileErr : String → List (String × String) → Option String
  eval : XExpr → Node → Except String XPathResult

/-- The lxml parser as an oracle: fromstring either raises an XMLSyntaxError
message or returns the parsed root element. -/
structure ParseEngine where
  fromstring : String → Except String Node

/-- Translation of fail_xpath_error: format the invalid-expression message and
fail the test (self.fail raises AssertionError). -/
def fail_xpath_error (node : Node) (xpath : String) (err : String) : PyResult α :=
  .assertFail (.xpathError node.tag xpath err)

/-- Translation of fail_xpath_not_found: format the no-result message from the
path of the compiled expression and fail the test. -/
def fail_xpath_not_found (node : Node) (expression : XExpr) : PyResult α :=
  .assertFail (.xpathNotFound node.tag expression.1)

/-- Translation of build_xpath_expression: build the namespaces dict from
node.nsmap with the default label dns, then compile the xpath against it,
turning an XPathSyntaxError into a test failure via fail_xpath_error. -/
def build_xpath_expression (eng : XPathEngine) (node : Node) (xpath : String)
    (dns : String := "ns") : PyResult XExpr :=
  let namespaces := buildNamespaces node.nsmap dns
  match eng.compileErr xpath namespaces with
  | some error => fail_xpath_error node xpath error
  | none => .ok (xpath, namespaces)

/-- Translation of build_xpath_expressions: the generator yields, for each
xpath in turn, the compiled expression or the test failure its compilation
error produces; consumers stop at the first failure. -/
def build_xpath_expressions (eng : XPathEngine) (node : Node)
    (xpaths : List String) (dns : String := "ns") : List (PyResult XExpr) :=
  xpaths.map fun xpath =>
    let namespaces := buildNamespaces node.nsmap dns
    match eng.compileErr xpath namespaces with
    | some error => fail_xpath_error node xpath error
    | none => .ok (xpath, namespaces)

/-- Translation of assertXmlDocument: parse the data with etree.fromstring,
turn an XMLSyntaxError into a test failure, and return the parsed root
element on success. -/
def assertXmlDocument (eng : ParseEngine) (data : String) : PyResult Node :=
  match eng.fromstring data with
  | .error e => .assertFail (.notValidDocument e)
  | .ok doc => .ok doc

/-- The default_partial_tag class attribute. -/
def default_partial_tag : String := "partialTest"

/-- Translation of assertXmlPartial: wrap partial_data in a root element
named root_tag (default_partial_tag when none), parse the wrapped string,
fail on an XMLSyntaxError, fail when the parsed wrapper has no child
element, and return the wrapper element otherwise. -/
def assertXmlPartial (eng : ParseEngine) (partial_data : String)
    (root_tag : Option String := none) : PyResult Node :=
  let tag_name := match root_tag with
    | some t => t
    | none => default_partial_tag
  let consolidated := "<" ++ tag_name ++ ">" ++ partial_data ++ "</" ++ tag_name ++ ">"
  match eng.fromstring consolidated with
  | .error e => .assertFail (.notValidPartial e)
  | .ok doc =>
    if doc.childrenCount = 0 then .assertFail .noElements
    else .ok doc

/-- Body of the assertXpathsExist loop for one expression drawn from the
build_xpath_expressions generator: a compilation failure aborts, an
XPathEvalError becomes a fail_xpath_error, and a falsy result becomes a
fail_xpath_not_found. -/
def existsStep (eng : XPathEngine) (node : Node) (pe : PyResult XExpr) :
    PyResult Unit :=
  match pe with
  | .ok expression =>
    match eng.eval expression node with
    | .error error => fail_xpath_error node expression.1 error
    | .ok r => if !truthy r then fail_xpath_not_found node expression else .ok ()
  | .assertFail m => .assertFail m
  | .valueError m => .valueError m
  | .raised m => .raised m

/-- Translation of assertXpathsExist: consume the build_xpath_expressions
generator one expression at a time (the generator compiles each xpath with
the same code as build_xpath_expression, lazily, so a later compilation
error is only reached when every earlier expression succeeded), running
existsStep on each and stopping at the first failure. -/
def assertXpathsExist (eng : XPathEngine) (node : Node) :
    List String → (dns : String := "ns") → PyResult Unit
  | [], _ => .ok ()
  | xpath :: rest, dns =>
    match existsStep eng node (build_xpath_expression eng node xpath dns) with
    | .ok _ => assertXpathsExist eng node rest dns
    | .assertFail m => .assertFail m
    | .valueError m => .valueError m
    | .raised m => .raised m

/-- Body of the assertXpathsOnlyOne loop for one expression: an
XPathEvalError becomes a fail_xpath_error, a falsy result a
fail_xpath_not_found, then len(results) (TypeError on a boolean or numeric
result) must not exceed one, otherwise the too-many-results failure reports
the count. -/
def onlyOneStep (eng : XPathEngine) (node : Node) (pe : PyResult XExpr) :
    PyResult Unit :=
  match pe with
  | .ok expression =>
    match eng.eval expression node with
    | .error error => fail_xpath_error node expression.1 error
    | .ok results =>
      if !truthy results then fail_xpath_not_found node expression
      else match pyLen results with
        | none => .raised "TypeError"
        | some count =>
          if count > 1 then
            .assertFail (.tooManyResults count node.tag expression.1)
          else .ok ()
  | .assertFail m => .assertFail m
  | .valueError m => .valueError m
  | .raised m => .raised m

/-- Translation of assertXpathsOnlyOne: consume the build_xpath_expressions
generator one expression at a time, running onlyOneStep on each and stopping
at the first failure. -/
def assertXpathsOnlyOne (eng : XPathEngine) (node : Node) :
    List String → (dns : String := "ns") → PyResult Unit
  | [], _ => .ok ()
  | xpath :: rest, dns =>
    match onlyOneStep eng node (build_xpath_expression eng node xpath dns) with
    | .ok _ => assertXpathsOnlyOne eng node rest dns
    | .assertFail m => .assertFail m
    | .valueError m => .valueError m
    | .raised m => .raised m

/-- Body of the assertXpathsUniqueValue loop for one expression: an
XPathEvalError becomes a fail_xpath_error, then the test fails when
len(results) differs from len(set(results)) (both raise TypeError on a
boolean or numeric result). -/
def uniqueValueStep (eng : XPathEngine) (node : Node) (pe : PyResult XExpr) :
    PyResult Unit :=
  match pe with
  | .ok expression =>
    match eng.eval expression node with
    | .error error => fail_xpath_error node expression.1 error
    | .ok results =>
      match pyLen results, pySetLen results with
      | some n, some m =>
        if n != m then .assertFail (.notUnique node.tag expression.1)
        else .ok ()
      | _, _ => .raised "TypeError"
  | .assertFail m => .assertFail m
  | .valueError m => .valueError m
  | .raised m => .raised m

/-- Translation of assertXpathsUniqueValue: consume the
build_xpath_expressions generator one expression at a time, running
uniqueValueStep on each and stopping at the first failure. -/
def assertXpathsUniqueValue (eng : XPathEngine) (node : Node) :
    List String → (dns : String := "ns") → PyResult Unit
  | [], _ => .ok ()
  | xpath :: rest, dns =>
    match uniqueValueStep eng node (build_xpath_expression eng node xpath dns) with
    | .ok _ => assertXpathsUniqueValue eng node rest dns
    | .assertFail m => .assertFail m
    | .valueError m => .valueError m
    | .raised m => .raised m

/-- The loop at the end of assertXpathValues: iterate over the results and
fail at the first result that is not among the accepted values, reporting
that result in the failure message. -/
def checkValues (node : Node) (xpath : String) (values : List XItem) :
    List XItem → PyResult Unit
  | [] => .ok ()
  | result :: rest =>
    if result ∉ values then
      .assertFail (.invalidValue node.tag xpath result)
    else checkValues node xpath values rest

/-- Translation of assertXpathValues: compile the single xpath with
build_xpath_expression, evaluate it (an XPathEvalError becomes a
fail_xpath_error), then iterate over the results (TypeError on a boolean or
numeric result) with the checkValues loop. -/
def assertXpathValues (eng : XPathEngine) (node : Node) (xpath : String)
    (values : List XItem) (dns : String := "ns") : PyResult Unit :=
  match build_xpath_expression eng node xpath dns with
  | .assertFail m => .assertFail m
  | .valueError m => .valueError m
  | .raised m => .raised m
  | .ok expression =>
    match eng.eval expression node with
    | .error error => fail_xpath_error node expression.1 error
    | .ok results =>
      match pyIter results with
      | none => .raised "TypeError"
      | some items => checkValues node xpath values items

/-- The schema argument of a validation assertion: absent (None), an already
constructed lxml schema object, or a string form of the schema. -/
inductive SchemaArg where
  | absent
  | schemaObj (s : Nat)
  | schemaStr (s : String)
deriving DecidableEq, Repr

/-- The lxml schema machinery as an oracle. Schema objects are abstract
handles (numbers). parseDTD models etree.DTD on a string source, parseXSchema
models etree.XMLSchema(etree.XML(s)), parseRelaxNG models
etree.RelaxNG(etree.XML(s)); each either raises a parse error message (which
the library does not catch) or returns a schema handle. validate models
schema.validate(node), lastError models schema.error_log.last_error, and
readFile models reading the content of a schema file. -/
structure SchemaEngine where
  parseDTD : String → Except String Nat
  parseXSchema : String → Except String Nat
  parseRelaxNG : String → Except String Nat
  validate : Nat → Node → Bool
  lastError : Nat → String
  readFile : String → String

/-- Shared tail of the three validation assertions: with the schema
variable as left by the argument analysis, read the schema file when the
schema is still None and a filename was given (the returned flag records
whether the file was opened), raise ValueError with the given message when
the schema is still None, and otherwise fail the test exactly when
schema.validate(node) is false, with the last error of the validator as the
failure message. -/
def validateWithSchema (parse : String → Except String Nat)
    (eng : SchemaEngine) (node : Node) (schema : Option Nat)
    (filename : Option String) (noSchemaMsg : String) :
    PyResult Unit × Bool :=
  match schema, filename with
  | none, some fn =>
    match parse (eng.readFile fn) with
    | .error e => (.raised e, true)
    | .ok s =>
      (if !eng.validate s node then .assertFail (.validationError (eng.lastError s))
       else .ok (), true)
  | none, none => (.valueError noSchemaMsg, false)
  | some s, _ =>
    (if !eng.validate s node then .assertFail (.validationError (eng.lastError s))
     else .ok (), false)

/-- Translation of assertXmlValidDTD: reuse a DTD object, or build one from a
string with etree.DTD (a parse error propagates), or build one from the file
when no dtd argument was given; with no dtd and no filename raise ValueError;
finally fail the test exactly when validation fails. The boolean of the
result records whether the schema file was opened. -/
def assertXmlValidDTD (eng : SchemaEngine) (node : Node)
    (dtd : SchemaArg := .absent) (filename : Option String := none) :
    PyResult Unit × Bool :=
  match dtd with
  | .schemaObj s =>
    validateWithSchema eng.parseDTD eng node (some s) filename "No valid DTD given."
  | .schemaStr str =>
    match eng.parseDTD str with
    | .error e => (.raised e, false)
    | .ok s =>
      validateWithSchema eng.parseDTD eng node (some s) filename "No valid DTD given."
  | .absent =>
    validateWithSchema eng.parseDTD eng node none filename "No valid DTD given."

/-- Translation of assertXmlValidXSchema: build an XMLSchema from a string
argument (a parse error propagates), or reuse an XMLSchema object, or build
one from the file when no xschema argument was given; with no xschema and no
filename raise ValueError; finally fail the test exactly when validation
fails. The boolean of the result records whether the schema file was
opened. -/
def assertXmlValidXSchema (eng : SchemaEngine) (node : Node)
    (xschema : SchemaArg := .absent) (filename : Option String := none) :
    PyResult Unit × Bool :=
  match xschema with
  | .schemaStr str =>
    match eng.parseXSchema str with
    | .error e => (.raised e, false)
    | .ok s =>
      validateWithSchema eng.parseXSchema eng node (some s) filename
        "No valid XMLSchema given."
  | .schemaObj s =>
    validateWithSchema eng.parseXSchema eng node (some s) filename
      "No valid XMLSchema given."
  | .absent =>
    validateWithSchema eng.parseXSchema eng node none filename
      "No valid XMLSchema given."

/-- Translation of assertXmlValidRelaxNG: build a RelaxNG from a string
argument (a parse error propagates), or reuse a RelaxNG object, or build one
from the file when no relaxng argument was given; with no relaxng and no
filename raise ValueError; finally fail the test exactly when validation
fails. The boolean of the result records whether the schema file was
opened. -/
def assertXmlValidRelaxNG (eng : SchemaEngine) (node : Node)
    (relaxng : SchemaArg := .absent) (filename : Option String := none) :
    PyResult Unit × Bool :=
  match relaxng with
  | .schemaStr str =>
    match eng.parseRelaxNG str with
    | .error e => (.raised e, false)
    | .ok s =>
      validateWithSchema eng.parseRelaxNG eng node (some s) filename
        "No valid RelaxNG given."
  | .schemaObj s =>
    validateWithSchema eng.parseRelaxNG eng node (some s) filename
      "No valid RelaxNG given."
  | .absent =>
    validateWithSchema eng.parseRelaxNG eng node none filename
      "No valid RelaxNG given."

/-- The lxml primitives a method of XmlTestMixin can invoke on the element
node it receives or on its tree. Readers observe the node; mutators (the
lxml API for changing a tree: set on attrib, assigning text or tag, adding
or removing children) change it. The assertion methods use only readers;
the mutators are listed so that not using them is a statement. -/
inductive LxmlOp where
  | readNsmap
  | readTag
  | readText
  | readAttrib
  | countChildren
  | compileXPath
  | evalXPath
  | tostringNode
  | validateNode
  | setAttr (k v : String)
  | setText (t : String)
  | setTag (t : String)
  | appendChild
  | removeAttr (k : String)
deriving DecidableEq, Repr

/-- Effect of one lxml primitive on the node it is applied to: readers leave
the node unchanged, mutators update the corresponding field. -/
def applyOp (node : Node) : LxmlOp → Node
  | .setAttr k v => { node with attrib := dictInsert node.attrib k v }
  | .setText t => { node with text := some t }
  | .setTag t => { node with tag := t }
  | .appendChild => { node with childrenCount := node.childrenCount + 1 }
  | .removeAttr k => { node with attrib := node.attrib.filter fun p => p.1 != k }
  | _ => node

/-- The lxml primitives the body of assertXmlNamespace applies to its node
argument: two reads of node.nsmap (assertIn and nsmap.get). -/
def opsOf_assertXmlNamespace : List LxmlOp := [.readNsmap, .readNsmap]

/-- The lxml primitives the body of assertXmlHasAttribute applies to its node
argument: reads of node.attrib (assertIn and the two attrib.get calls). -/
def opsOf_assertXmlHasAttribute : List LxmlOp := [.readAttrib, .readAttrib, .readAttrib]

/-- The lxml primitives the body of assertXmlNode applies to its node
argument: reads of node.tag and node.text. -/
def opsOf_assertXmlNode : List LxmlOp := [.readTag, .readText, .readText]

/-- The lxml primitives the body of assertXpathsExist applies to its node
argument: the nsmap read and XPath compilation of build_xpath_expressions,
evaluation of each expression on the node, and the tag read and tostring of
the failure messages. -/
def opsOf_assertXpathsExist : List LxmlOp :=
  [.readNsmap, .compileXPath, .evalXPath, .readTag, .tostringNode]

/-- The lxml primitives the body of assertXpathsOnlyOne applies to its node
argument: as for assertXpathsExist. -/
def opsOf_assertXpathsOnlyOne : List LxmlOp :=
  [.readNsmap, .compileXPath, .evalXPath, .readTag, .tostringNode]

/-- The lxml primitives the body of assertXpathsUniqueValue applies to its
node argument: as for assertXpathsExist. -/
def opsOf_assertXpathsUniqueValue : List LxmlOp :=
  [.readNsmap, .compileXPath, .evalXPath, .readTag, .tostringNode]

/-- The lxml primitives the body of assertXpathValues applies to its node
argument: as for assertXpathsExist. -/
def opsOf_assertXpathValues : List LxmlOp :=
  [.readNsmap, .compileXPath, .evalXPath, .readTag, .tostringNode]

/-- The lxml primitives the body of assertXmlValidDTD applies to its node
argument: schema.validate(node). -/
def opsOf_assertXmlValidDTD : List LxmlOp := [.validateNode]

/-- The lxml primitives the body of assertXmlValidXSchema applies to its node
argument: schema.validate(node). -/
def opsOf_assertXmlValidXSchema : List LxmlOp := [.validateNode]

/-- The lxml primitives the body of assertXmlValidRelaxNG applies to its node
argument: schema.validate(node). -/
def opsOf_assertXmlValidRelaxNG : List LxmlOp := [.validateNode]

/-- Every lxml primitive applied to a received node anywhere in the bodies of
the assertion methods of XmlTestMixin that take an element node argument. -/
def xmlTestMixinNodeOps : List LxmlOp :=
  opsOf_assertXmlNamespace ++ opsOf_assertXmlHasAttribute ++ opsOf_assertXmlNode ++
  opsOf_assertXpathsExist ++ opsOf_assertXpathsOnlyOne ++
  opsOf_assertXpathsUniqueValue ++ opsOf_assertXpathValues ++
  opsOf_assertXmlValidDTD ++ opsOf_assertXmlValidXSchema ++
  opsOf_assertXmlValidRelaxNG

/-- A sample element node with a default namespace and a prefixed one, used
to instantiate the universally quantified theorems below. -/
def egNode : Node :=
  { tag := "root", text := some "t", attrib := [("a", "1")],
    childrenCount := 1, nsmap := [(none, "uDefault"), (some "x", "uX")] }

/-- A sample XPath oracle on which every expression compiles and evaluates to
a one-element node-set. -/
def egEngine : XPathEngine :=
  { compileErr := fun _ _ => none,
    eval := fun _ _ => .ok (.nodeset [.str "v"]) }

/-- A sample XPath oracle on which every expression compiles and evaluates to
the boolean False, as the valid XPath expression false() does on any node in
lxml. -/
def falsyEngine : XPathEngine :=
  { compileErr := fun _ _ => none,
    eval := fun _ _ => .ok (.bool false) }

/-- A sample parser oracle: a string starting with < parses to a node whose
number of children is the number of times the letter c occurs in it,
anything else raises XMLSyntaxError. -/
def egParseEngine : ParseEngine :=
  { fromstring := fun s =>
      match s.toList with
      | '<' :: _ =>
        .ok { tag := "parsed", text := none, attrib := [],
              childrenCount := s.toList.count 'c', nsmap := [] }
      | _ => .error "syntax error" }

/-- A sample schema oracle: handle 1 is the DTD, 2 the XMLSchema, 3 the
RelaxNG; only handle 1 validates egNode; every schema source parses. -/
def egSchemaEngine : SchemaEngine :=
  { parseDTD := fun _ => .ok 1,
    parseXSchema := fun _ => .ok 2,
    parseRelaxNG := fun _ => .ok 3,
    validate := fun s _ => s = 1,
    lastError := fun s => "schema " ++ toString s ++ " failed",
    readFile := fun fn => "content of " ++ fn }

/-- The substitution the specification describes: every nsmap binding kept
as declared, except that the binding with an absent prefix is keyed by the
default label dns. -/
def substNs (nsmap : List (Option String × String)) (dns : String) :
    List (String × String) :=
  nsmap.map fun e => (orDefault e.1 dns, e.2)

/-- The condition under which one xpath makes assertXpathsExist proceed: it
compiles against the namespaces dict built from the node, and its evaluation
on the node returns (without XPathEvalError) a truthy value. -/
def xpathTruthyOn (eng : XPathEngine) (node : Node) (dns : String) (x : String) : Prop :=
  eng.compileErr x (buildNamespaces node.nsmap dns) = none
  ∧ ∃ r, eng.eval (x, buildNamespaces node.nsmap dns) node = .ok r ∧ truthy r = true

/-- Statement of the uniqueness-of-result claim, written from the words of
the specification for comparison with the code: for each expression in turn,
zero results cause the no-result failure, more than one result causes the
too-many-results failure reporting the count, and exactly one result
proceeds to the next expression. -/
def onlyOneClaimed (eng : XPathEngine) (node : Node) (dns : String) :
    List String → PyResult Unit
  | [] => .ok ()
  | x :: rest =>
    match eng.eval (x, buildNamespaces node.nsmap dns) node with
    | .ok (.nodeset items) =>
      if items.length = 0 then .assertFail (.xpathNotFound node.tag x)
      else if items.length > 1 then
        .assertFail (.tooManyResults items.length node.tag x)
      else onlyOneClaimed eng node dns rest
    | _ => .raised "outside the claim"

/-- Statement of the unique-values claim, written from the words of the
specification for comparison with the code: for each expression in turn, a
sequence of selected values containing a duplicate (fewer distinct values
than values) causes the value-not-unique failure, and a duplicate-free
sequence proceeds to the next expression. -/
def uniqueClaimed (eng : XPathEngine) (node : Node) (dns : String) :
    List String → PyResult Unit
  | [] => .ok ()
  | x :: rest =>
    match eng.eval (x, buildNamespaces node.nsmap dns) node with
    | .ok (.nodeset items) =>
      if items.length ≠ items.dedup.length then .assertFail (.notUnique node.tag x)
      else uniqueClaimed eng node dns rest
    | _ => .raised "outside the claim"

/-- The wrapped string assertXmlPartial builds: the partial data enclosed in
an element whose tag is root_tag when given and default_partial_tag
otherwise. -/
def consolidatedOf (partial_data : String) (root_tag : Option String) : String :=
  let tag_name := match root_tag with
    | some t => t
    | none => default_partial_tag
  "<" ++ tag_name ++ ">" ++ partial_data ++ "</" ++ tag_name ++ ">"

lemma dictInsert_fresh (d : List (String × String)) (k v : String)
    (h : ∀ p ∈ d, p.1 ≠ k) : dictInsert d k v = d ++ [(k, v)] := by
  unfold dictInsert
  have hany : (d.any fun p => p.1 = k) = false := by
    simp only [List.any_eq_false, decide_eq_true_eq]
    exact h
  simp [hany]

lemma buildNamespaces_foldl (dns : String) :
    ∀ (nsmap : List (Option String × String)) (acc : List (String × String)),
      ((acc ++ substNs nsmap dns).map Prod.fst).Nodup →
      nsmap.foldl (fun d e => dictInsert d (orDefault e.1 dns) e.2) acc
        = acc ++ substNs nsmap dns := by
  intro nsmap
  induction nsmap with
  | nil => intro acc _; simp [substNs]
  | cons e rest ih =>
    intro acc h
    have hkeys : ((acc ++ substNs (e :: rest) dns).map Prod.fst)
        = acc.map Prod.fst ++ (orDefault e.1 dns :: (substNs rest dns).map Prod.fst) := by
      simp [substNs]
    rw [hkeys] at h
    rcases List.nodup_append.mp h with ⟨h1, h2, hdisj⟩
    have hfresh : ∀ p ∈ acc, p.1 ≠ orDefault e.1 dns := by
      intro p hp hcontra
      exact hdisj (hcontra ▸ List.mem_map_of_mem Prod.fst hp) (List.mem_cons_self _ _)
    have hstep : dictInsert acc (orDefault e.1 dns) e.2 = acc ++ [(orDefault e.1 dns, e.2)] :=
      dictInsert_fresh acc _ e.2 hfresh
    have hrec := ih (acc ++ [(orDefault e.1 dns, e.2)]) (by
      have : (acc ++ [(orDefault e.1 dns, e.2)]) ++ substNs rest dns
          = acc ++ substNs (e :: rest) dns := by
        simp [substNs]
      rw [this, hkeys]
      exact h)
    calc (e :: rest).foldl (fun d f => dictInsert d (orDefault f.1 dns) f.2) acc
        = rest.foldl (fun d f => dictInsert d (orDefault f.1 dns) f.2)
            (dictInsert acc (orDefault e.1 dns) e.2) := by rfl
      _ = rest.foldl (fun d f => dictInsert d (orDefault f.1 dns) f.2)
            (acc ++ [(orDefault e.1 dns, e.2)]) := by rw [hstep]
      _ = (acc ++ [(orDefault e.1 dns, e.2)]) ++ substNs rest dns := hrec
      _ = acc ++ substNs (e :: rest) dns := by simp [substNs]

/-- C1 (amended): provided the substituted keys are pairwise distinct (in
particular the default label does not collide with a declared prefix), the
namespaces dict that build_xpath_expression and build_xpath_expressions
compile every XPath against holds exactly the declared (prefix, URI)
bindings of node.nsmap, with the binding whose prefix is absent keyed by the
default label and mapped to the same URI. -/
theorem build_xpath_nsmap_exact (eng : XPathEngine) (node : Node)
    (xpaths : List String) (xpath : String) (dns : String)
    (h : ((substNs node.nsmap dns).map Prod.fst).Nodup) :
    buildNamespaces node.nsmap dns = substNs node.nsmap dns
    ∧ (∀ e, build_xpath_expression eng node xpath dns = .ok e →
        e = (xpath, substNs node.nsmap dns))
    ∧ (∀ pe ∈ build_xpath_expressions eng node xpaths dns, ∀ e, pe = .ok e →
        e.2 = substNs node.nsmap dns) := by
  have hmap : buildNamespaces node.nsmap dns = substNs node.nsmap dns := by
    have := buildNamespaces_foldl dns node.nsmap [] (by simpa using h)
    simpa [buildNamespaces] using this
  refine ⟨hmap, ?_, ?_⟩
  · intro e he
    unfold build_xpath_expression at he
    rcases hc : eng.compileErr xpath (buildNamespaces node.nsmap dns) with _ | err
    · simp only [hc] at he
      cases he
      exact congrArg (Prod.mk xpath) hmap
    · simp [hc, fail_xpath_error] at he
  · intro pe hpe e he
    unfold build_xpath_expressions at hpe
    rcases List.mem_map.mp hpe with ⟨x, _, hx⟩
    subst hx
    rcases hc : eng.compileErr x (buildNamespaces node.nsmap dns) with _ | err
    · simp only [hc] at he
      cases he
      exact hmap
    · simp [hc, fail_xpath_error] at he

/-- Witness for build_xpath_nsmap_exact at a concrete node with a default
namespace and a prefixed one. -/
theorem build_xpath_nsmap_exact_witness :
    ((substNs egNode.nsmap "ns").map Prod.fst).Nodup
    ∧ buildNamespaces egNode.nsmap "ns"
        = [("ns", "uDefault"), ("x", "uX")] := by
  have h : ((substNs egNode.nsmap "ns").map Prod.fst).Nodup := by decide
  refine ⟨h, ?_⟩
  have := (build_xpath_nsmap_exact egEngine egNode [] "./a" "ns" h).1
  rw [this]
  decide

/-- C1 counterexample: when the default label collides with a declared
prefix, the namespaces dict cannot and does not hold both bindings; the
binding of the default (absent-prefix) namespace is silently overwritten by
the later nsmap item, so the built dict is not the claimed exact image of
node.nsmap. -/
theorem buildNamespaces_collision_counterexample :
    buildNamespaces [(none, "u1"), (some "ns", "u2")] "ns" = [("ns", "u2")]
    ∧ ("ns", "u1") ∉ buildNamespaces [(none, "u1"), (some "ns", "u2")] "ns"
    ∧ buildNamespaces [(none, "u1"), (some "ns", "u2")] "ns"
        ≠ substNs [(none, "u1"), (some "ns", "u2")] "ns" := by
  refine ⟨by decide, by decide, by decide⟩

/-- C2 (amended): assertXpathsExist never propagates an XPathSyntaxError or
XPathEvalError (its outcome is always a normal return or an AssertionError
from self.fail), and it returns normally exactly when every expression of
the tuple compiles and evaluates on the node, without error, to a truthy
value; equivalently, the test fails exactly when some expression is
syntactically invalid, raises an evaluation error, or evaluates to a falsy
value (an empty node-set, False, a zero number, or an empty string). -/
theorem assertXpathsExist_spec (eng : XPathEngine) (node : Node)
    (xpaths : List String) (dns : String) :
    (assertXpathsExist eng node xpaths dns = .ok ()
      ∨ ∃ m, assertXpathsExist eng node xpaths dns = .assertFail m)
    ∧ (assertXpathsExist eng node xpaths dns = .ok ()
      ↔ ∀ x ∈ xpaths, xpathTruthyOn eng node dns x) := by
  induction xpaths with
  | nil => exact ⟨Or.inl rfl, by simp [assertXpathsExist]⟩
  | cons x rest ih =>
    rcases hc : eng.compileErr x (buildNamespaces node.nsmap dns) with _ | err
    · rcases he : eng.eval (x, buildNamespaces node.nsmap dns) node with err2 | r
      · have hres : assertXpathsExist eng node (x :: rest) dns
            = .assertFail (.xpathError node.tag x err2) := by
          simp [assertXpathsExist, build_xpath_expression, existsStep,
            fail_xpath_error, hc, he]
        refine ⟨Or.inr ⟨_, hres⟩, ?_⟩
        rw [hres]
        simp only [List.forall_mem_cons, xpathTruthyOn]
        constructor
        · intro h; cases h
        · rintro ⟨⟨-, r, hr, -⟩, -⟩
          rw [he] at hr
          cases hr
      · by_cases ht : truthy r = true
        · have hres : assertXpathsExist eng node (x :: rest) dns
              = assertXpathsExist eng node rest dns := by
            simp [assertXpathsExist, build_xpath_expression, existsStep,
              hc, he, ht]
          rw [hres]
          refine ⟨ih.1, ?_⟩
          rw [ih.2]
          simp only [List.forall_mem_cons, xpathTruthyOn]
          constructor
          · intro h; exact ⟨⟨hc, r, he, ht⟩, h⟩
          · rintro ⟨-, h⟩; exact h
        · have ht' : truthy r = false := by
            cases hb : truthy r
            · rfl
            · exact absurd hb ht
          have hres : assertXpathsExist eng node (x :: rest) dns
              = .assertFail (.xpathNotFound node.tag x) := by
            simp [assertXpathsExist, build_xpath_expression, existsStep,
              fail_xpath_not_found, hc, he, ht']
          refine ⟨Or.inr ⟨_, hres⟩, ?_⟩
          rw [hres]
          simp only [List.forall_mem_cons, xpathTruthyOn]
          constructor
          · intro h; cases h
          · rintro ⟨⟨-, r2, hr2, htr2⟩, -⟩
            rw [he] at hr2
            cases hr2
            rw [htr2] at ht'
            cases ht'
    · have hres : assertXpathsExist eng node (x :: rest) dns
          = .assertFail (.xpathError node.tag x err) := by
        simp [assertXpathsExist, build_xpath_expression, existsStep,
          fail_xpath_error, hc]
      refine ⟨Or.inr ⟨_, hres⟩, ?_⟩
      rw [hres]
      simp only [List.forall_mem_cons, xpathTruthyOn]
      constructor
      · intro h; cases h
      · rintro ⟨⟨hcn, -⟩, -⟩
        rw [hc] at hcn
        cases hcn

/-- Witness for assertXpathsExist_spec at a concrete engine, node and
xpath list. -/
theorem assertXpathsExist_spec_witness :
    assertXpathsExist egEngine egNode ["./child", "@attr"] "ns" = .ok () := by
  have h := (assertXpathsExist_spec egEngine egNode ["./child", "@attr"] "ns").2
  rw [h]
  intro x hx
  exact ⟨rfl, .nodeset [.str "v"], rfl, rfl⟩

/-- C2 counterexample: on the valid XPath expression false(), which lxml
evaluates to the boolean False on any node, assertXpathsExist raises
AssertionError although the expression is syntactically valid, raises no
evaluation error, and evaluates to a value that is not None. -/
theorem assertXpathsExist_falsy_counterexample :
    assertXpathsExist falsyEngine egNode ["false()"] "ns"
      = .assertFail (.xpathNotFound "root" "false()")
    ∧ falsyEngine.compileErr "false()" (buildNamespaces egNode.nsmap "ns") = none
    ∧ falsyEngine.eval ("false()", buildNamespaces egNode.nsmap "ns") egNode
      = .ok (.bool false) := by
  exact ⟨rfl, rfl, rfl⟩

/-- C3: when every expression of the tuple compiles and evaluates on the
node to a node-set, assertXpathsOnlyOne behaves exactly as the claim states:
it passes precisely when each expression selects exactly one result, an
expression with zero results produces the no-result failure, and an
expression with several results produces the too-many-results failure
reporting the count. -/
theorem assertXpathsOnlyOne_spec (eng : XPathEngine) (node : Node)
    (xpaths : List String) (dns : String)
    (h : ∀ x ∈ xpaths, eng.compileErr x (buildNamespaces node.nsmap dns) = none
        ∧ ∃ items, eng.eval (x, buildNamespaces node.nsmap dns) node
            = .ok (.nodeset items)) :
    assertXpathsOnlyOne eng node xpaths dns = onlyOneClaimed eng node dns xpaths
    ∧ (assertXpathsOnlyOne eng node xpaths dns = .ok ()
      ↔ ∀ x ∈ xpaths, ∀ items,
          eng.eval (x, buildNamespaces node.nsmap dns) node = .ok (.nodeset items) →
          items.length = 1) := by
  induction xpaths with
  | nil => exact ⟨rfl, by simp [assertXpathsOnlyOne]⟩
  | cons x rest ih =>
    obtain ⟨hc, items, he⟩ := h x (List.mem_cons_self x rest)
    have hrest := ih fun y hy => h y (List.mem_cons_of_mem x hy)
    rcases items with _ | ⟨i, is⟩
    · have hres : assertXpathsOnlyOne eng node (x :: rest) dns
          = .assertFail (.xpathNotFound node.tag x) := by
        simp [assertXpathsOnlyOne, build_xpath_expression, onlyOneStep,
          fail_xpath_not_found, truthy, hc, he]
      have hclaimed : onlyOneClaimed eng node dns (x :: rest)
          = .assertFail (.xpathNotFound node.tag x) := by
        simp [onlyOneClaimed, he]
      refine ⟨hres.trans hclaimed.symm, ?_⟩
      rw [hres]
      constructor
      · intro hcontra; cases hcontra
      · intro hall
        have := hall x (List.mem_cons_self x rest) [] he
        cases this
    · by_cases hlen : (i :: is).length > 1
      · have hpos : 0 < is.length := by
          simp only [List.length_cons] at hlen
          omega
        have hres : assertXpathsOnlyOne eng node (x :: rest) dns
            = .assertFail (.tooManyResults (i :: is).length node.tag x) := by
          simp [assertXpathsOnlyOne, build_xpath_expression, onlyOneStep,
            truthy, pyLen, hc, he, hpos]
        have hclaimed : onlyOneClaimed eng node dns (x :: rest)
            = .assertFail (.tooManyResults (i :: is).length node.tag x) := by
          simp [onlyOneClaimed, he, hpos]
        refine ⟨hres.trans hclaimed.symm, ?_⟩
        rw [hres]
        constructor
        · intro hcontra; cases hcontra
        · intro hall
          have h1 := hall x (List.mem_cons_self x rest) (i :: is) he
          omega
      · have hone : (i :: is).length = 1 := by
          simp only [List.length_cons] at hlen ⊢
          omega
        have his : is = [] := by
          simp only [List.length_cons] at hone
          exact List.eq_nil_of_length_eq_zero (by omega)
        subst his
        have hres : assertXpathsOnlyOne eng node (x :: rest) dns
            = assertXpathsOnlyOne eng node rest dns := by
          simp [assertXpathsOnlyOne, build_xpath_expression, onlyOneStep,
            truthy, pyLen, hc, he]
        have hclaimed : onlyOneClaimed eng node dns (x :: rest)
            = onlyOneClaimed eng node dns rest := by
          simp [onlyOneClaimed, he]
        rw [hres, hclaimed]
        refine ⟨hrest.1, ?_⟩
        rw [hrest.2]
        constructor
        · intro hall
          intro y hy
          rcases List.mem_cons.mp hy with hy | hy
          · subst hy
            intro items' he'
            rw [he] at he'
            cases he'
            exact hone
          · exact hall y hy
        · intro hall y hy
          exact hall y (List.mem_cons_of_mem x hy)

/-- Witness for assertXpathsOnlyOne_spec at a concrete engine, node and
xpath list on which every expression selects the one-element node-set. -/
theorem assertXpathsOnlyOne_spec_witness :
    assertXpathsOnlyOne egEngine egNode ["./unique"] "ns" = .ok () := by
  have h := (assertXpathsOnlyOne_spec egEngine egNode ["./unique"] "ns"
    (fun x _ => ⟨rfl, [.str "v"], rfl⟩)).2
  rw [h]
  intro x hx items he
  cases he
  rfl

/-- C4: when every expression of the tuple compiles and evaluates on the
node to a node-set, assertXpathsUniqueValue behaves exactly as the claim
states: it passes precisely when, for each expression, the number of
selected values equals the number of distinct selected values, and a
duplicate causes the value-not-unique failure. -/
theorem assertXpathsUniqueValue_spec (eng : XPathEngine) (node : Node)
    (xpaths : List String) (dns : String)
    (h : ∀ x ∈ xpaths, eng.compileErr x (buildNamespaces node.nsmap dns) = none
        ∧ ∃ items, eng.eval (x, buildNamespaces node.nsmap dns) node
            = .ok (.nodeset items)) :
    assertXpathsUniqueValue eng node xpaths dns = uniqueClaimed eng node dns xpaths
    ∧ (assertXpathsUniqueValue eng node xpaths dns = .ok ()
      ↔ ∀ x ∈ xpaths, ∀ items,
          eng.eval (x, buildNamespaces node.nsmap dns) node = .ok (.nodeset items) →
          items.length = items.dedup.length) := by
  induction xpaths with
  | nil => exact ⟨rfl, by simp [assertXpathsUniqueValue]⟩
  | cons x rest ih =>
    obtain ⟨hc, items, he⟩ := h x (List.mem_cons_self x rest)
    have hrest := ih fun y hy => h y (List.mem_cons_of_mem x hy)
    by_cases hdl : items.length = items.dedup.length
    · have hres : assertXpathsUniqueValue eng node (x :: rest) dns
          = assertXpathsUniqueValue eng node rest dns := by
        simp [assertXpathsUniqueValue, build_xpath_expression, uniqueValueStep,
          pyLen, pySetLen, hc, he, hdl]
      have hclaimed : uniqueClaimed eng node dns (x :: rest)
          = uniqueClaimed eng node dns rest := by
        simp [uniqueClaimed, he, hdl]
      rw [hres, hclaimed]
      refine ⟨hrest.1, ?_⟩
      rw [hrest.2]
      constructor
      · intro hall y hy
        rcases List.mem_cons.mp hy with hy | hy
        · subst hy
          intro items' he'
          rw [he] at he'
          cases he'
          exact hdl
        · exact hall y hy
      · intro hall y hy
        exact hall y (List.mem_cons_of_mem x hy)
    · have hres : assertXpathsUniqueValue eng node (x :: rest) dns
          = .assertFail (.notUnique node.tag x) := by
        simp [assertXpathsUniqueValue, build_xpath_expression, uniqueValueStep,
          pyLen, pySetLen, hc, he, hdl]
      have hclaimed : uniqueClaimed eng node dns (x :: rest)
          = .assertFail (.notUnique node.tag x) := by
        simp [uniqueClaimed, he, hdl]
      refine ⟨hres.trans hclaimed.symm, ?_⟩
      rw [hres]
      constructor
      · intro hcontra; cases hcontra
      · intro hall
        exact absurd (hall x (List.mem_cons_self x rest) items he) hdl

/-- Witness for assertXpathsUniqueValue_spec at a concrete engine whose
node-set results are duplicate free. -/
theorem assertXpathsUniqueValue_spec_witness :
    assertXpathsUniqueValue egEngine egNode ["./sub/@id"] "ns" = .ok () := by
  have h := (assertXpathsUniqueValue_spec egEngine egNode ["./sub/@id"] "ns"
    (fun x _ => ⟨rfl, [.str "v"], rfl⟩)).2
  rw [h]
  intro x hx items he
  cases he
  rfl

lemma checkValues_spec (node : Node) (xpath : String) (values : List XItem) :
    ∀ items : List XItem,
      (checkValues node xpath values items = .ok () ↔ ∀ v ∈ items, v ∈ values)
      ∧ (checkValues node xpath values items = .ok ()
        ∨ ∃ v ∈ items, v ∉ values ∧ checkValues node xpath values items
            = .assertFail (.invalidValue node.tag xpath v)) := by
  intro items
  induction items with
  | nil => exact ⟨by simp [checkValues], Or.inl rfl⟩
  | cons i rest ih =>
    by_cases hv : i ∈ values
    · have hstep : checkValues node xpath values (i :: rest)
          = checkValues node xpath values rest := by
        simp [checkValues, hv]
      rw [hstep]
      refine ⟨?_, ?_⟩
      · rw [ih.1]
        simp [hv]
      · rcases ih.2 with hok | ⟨v, hvr, hnv, heq⟩
        · exact Or.inl hok
        · exact Or.inr ⟨v, List.mem_cons_of_mem i hvr, hnv, heq⟩
    · have hstep : checkValues node xpath values (i :: rest)
          = .assertFail (.invalidValue node.tag xpath i) := by
        simp [checkValues, hv]
      rw [hstep]
      refine ⟨?_, ?_⟩
      · constructor
        · intro hcontra; cases hcontra
        · intro hall
          exact absurd (hall i (List.mem_cons_self i rest)) hv
      · exact Or.inr ⟨i, List.mem_cons_self i rest, hv, rfl⟩

/-- C7: when the expression compiles and evaluates on the node to a
node-set, assertXpathValues passes exactly when every selected value is
among the accepted values, and a selected value outside the accepted values
makes the test fail with a message reporting that value. -/
theorem assertXpathValues_spec (eng : XPathEngine) (node : Node)
    (xpath : String) (values : List XItem) (dns : String) (items : List XItem)
    (hc : eng.compileErr xpath (buildNamespaces node.nsmap dns) = none)
    (he : eng.eval (xpath, buildNamespaces node.nsmap dns) node
        = .ok (.nodeset items)) :
    (assertXpathValues eng node xpath values dns = .ok ()
      ↔ ∀ v ∈ items, v ∈ values)
    ∧ (assertXpathValues eng node xpath values dns = .ok ()
      ∨ ∃ v ∈ items, v ∉ values ∧
          assertXpathValues eng node xpath values dns
            = .assertFail (.invalidValue node.tag xpath v)) := by
  have hres : assertXpathValues eng node xpath values dns
      = checkValues node xpath values items := by
    simp [assertXpathValues, build_xpath_expression, pyIter, hc, he]
  rw [hres]
  exact checkValues_spec node xpath values items

/-- Witness for assertXpathValues_spec at a concrete engine whose node-set
result is contained in the accepted values. -/
theorem assertXpathValues_spec_witness :
    assertXpathValues egEngine egNode "./sub/@id" [.str "v", .str "w"] "ns"
      = .ok () := by
  have h := (assertXpathValues_spec egEngine egNode "./sub/@id"
    [.str "v", .str "w"] "ns" [.str "v"] rfl rfl).1
  rw [h]
  intro v hv
  rcases List.mem_singleton.mp hv with rfl
  exact List.mem_cons_self _ _

/-- C6: assertXmlPartial parses exactly the wrapped string consolidatedOf;
a parse failure of the wrapped string fails the test, a parsed wrapper with
zero child elements fails the test with the no-elements message, and
otherwise the parsed wrapper element is returned. -/
theorem assertXmlPartial_spec (eng : ParseEngine) (partial_data : String)
    (root_tag : Option String) :
    (∀ e, eng.fromstring (consolidatedOf partial_data root_tag) = .error e →
        assertXmlPartial eng partial_data root_tag
          = .assertFail (.notValidPartial e))
    ∧ (∀ d, eng.fromstring (consolidatedOf partial_data root_tag) = .ok d →
        (d.childrenCount = 0 →
          assertXmlPartial eng partial_data root_tag = .assertFail .noElements)
        ∧ (d.childrenCount ≠ 0 →
          assertXmlPartial eng partial_data root_tag = .ok d)) := by
  have hdef : assertXmlPartial eng partial_data root_tag
      = (match eng.fromstring (consolidatedOf partial_data root_tag) with
        | .error e => .assertFail (.notValidPartial e)
        | .ok doc =>
          if doc.childrenCount = 0 then .assertFail .noElements
          else .ok doc) := rfl
  refine ⟨?_, ?_⟩
  · intro e he
    rw [hdef, he]
  · intro d hd
    constructor
    · intro hzero
      rw [hdef, hd]
      simp [hzero]
    · intro hnz
      rw [hdef, hd]
      simp [hnz]

/-- Witness for assertXmlPartial_spec on the sample parser, at a partial
document with one child element and the default wrapper tag. -/
theorem assertXmlPartial_spec_witness :
    assertXmlPartial egParseEngine "<c/>" none
      = .ok { tag := "parsed", text := none, attrib := [],
              childrenCount := 1, nsmap := [] } := by
  exact ((assertXmlPartial_spec egParseEngine "<c/>" none).2
    { tag := "parsed", text := none, attrib := [], childrenCount := 1, nsmap := [] }
    rfl).2 (by decide)

/-- C8: assertXmlDocument fails the test exactly when parsing raises an
XMLSyntaxError, never lets the parse error or any other exception propagate,
and returns the parsed root element unchanged on success. -/
theorem assertXmlDocument_spec (eng : ParseEngine) (data : String) :
    (∀ e, eng.fromstring data = .error e →
        assertXmlDocument eng data = .assertFail (.notValidDocument e))
    ∧ (∀ d, eng.fromstring data = .ok d → assertXmlDocument eng data = .ok d)
    ∧ (∀ m, assertXmlDocument eng data ≠ .raised m
        ∧ assertXmlDocument eng data ≠ .valueError m) := by
  refine ⟨?_, ?_, ?_⟩
  · intro e he
    simp [assertXmlDocument, he]
  · intro d hd
    simp [assertXmlDocument, hd]
  · intro m
    rcases h : eng.fromstring data with e | d
    · exact ⟨by simp [assertXmlDocument, h], by simp [assertXmlDocument, h]⟩
    · exact ⟨by simp [assertXmlDocument, h], by simp [assertXmlDocument, h]⟩

/-- Witness for assertXmlDocument_spec on the sample parser at a parsable
input, returned unchanged. -/
theorem assertXmlDocument_spec_witness :
    assertXmlDocument egParseEngine "<a>"
      = .ok { tag := "parsed", text := none, attrib := [],
              childrenCount := 0, nsmap := [] } := by
  exact (assertXmlDocument_spec egParseEngine "<a>").2.1
    { tag := "parsed", text := none, attrib := [], childrenCount := 0, nsmap := [] }
    rfl

lemma validateWithSchema_some (parse : String → Except String Nat)
    (eng : SchemaEngine) (node : Node) (s : Nat) (fn : Option String)
    (msg : String) :
    validateWithSchema parse eng node (some s) fn msg
      = ((if eng.validate s node then .ok ()
          else .assertFail (.validationError (eng.lastError s))), false) := by
  cases fn <;> by_cases hv : eng.validate s node <;>
    simp [validateWithSchema, hv]

lemma validateWithSchema_file (parse : String → Except String Nat)
    (eng : SchemaEngine) (node : Node) (f : String) (msg : String) (s : Nat)
    (h : parse (eng.readFile f) = .ok s) :
    validateWithSchema parse eng node none (some f) msg
      = ((if eng.validate s node then .ok ()
          else .assertFail (.validationError (eng.lastError s))), true) := by
  by_cases hv : eng.validate s node <;> simp [validateWithSchema, h, hv]

lemma validateWithSchema_none (parse : String → Except String Nat)
    (eng : SchemaEngine) (node : Node) (msg : String) :
    validateWithSchema parse eng node none none msg = (.valueError msg, false) := rfl

/-- C5: each of assertXmlValidDTD, assertXmlValidXSchema and
assertXmlValidRelaxNG raises ValueError exactly when called with neither a
schema argument nor a filename; and on every path that yields a schema
object (reusing the given object, building one from the given string, or
building one from the file), the test fails precisely when validate returns
false, with the last error of the validator as the failure message. -/
theorem assertXmlValid_schema_spec (eng : SchemaEngine) (node : Node)
    (fn : Option String) :
    ((assertXmlValidDTD eng node .absent none).1
        = .valueError "No valid DTD given."
      ∧ (assertXmlValidXSchema eng node .absent none).1
        = .valueError "No valid XMLSchema given."
      ∧ (assertXmlValidRelaxNG eng node .absent none).1
        = .valueError "No valid RelaxNG given.")
    ∧ (∀ s, (assertXmlValidDTD eng node (.schemaObj s) fn).1
          = (if eng.validate s node then .ok ()
            else .assertFail (.validationError (eng.lastError s)))
        ∧ (assertXmlValidXSchema eng node (.schemaObj s) fn).1
          = (if eng.validate s node then .ok ()
            else .assertFail (.validationError (eng.lastError s)))
        ∧ (assertXmlValidRelaxNG eng node (.schemaObj s) fn).1
          = (if eng.validate s node then .ok ()
            else .assertFail (.validationError (eng.lastError s))))
    ∧ (∀ str s, eng.parseDTD str = .ok s →
        (assertXmlValidDTD eng node (.schemaStr str) fn).1
          = (if eng.validate s node then .ok ()
            else .assertFail (.validationError (eng.lastError s))))
    ∧ (∀ str s, eng.parseXSchema str = .ok s →
        (assertXmlValidXSchema eng node (.schemaStr str) fn).1
          = (if eng.validate s node then .ok ()
            else .assertFail (.validationError (eng.lastError s))))
    ∧ (∀ str s, eng.parseRelaxNG str = .ok s →
        (assertXmlValidRelaxNG eng node (.schemaStr str) fn).1
          = (if eng.validate s node then .ok ()
            else .assertFail (.validationError (eng.lastError s))))
    ∧ (∀ f s, eng.parseDTD (eng.readFile f) = .ok s →
        (assertXmlValidDTD eng node .absent (some f)).1
          = (if eng.validate s node then .ok ()
            else .assertFail (.validationError (eng.lastError s))))
    ∧ (∀ f s, eng.parseXSchema (eng.readFile f) = .ok s →
        (assertXmlValidXSchema eng node .absent (some f)).1
          = (if eng.validate s node then .ok ()
            else .assertFail (.validationError (eng.lastError s))))
    ∧ (∀ f s, eng.parseRelaxNG (eng.readFile f) = .ok s →
        (assertXmlValidRelaxNG eng node .absent (some f)).1
          = (if eng.validate s node then .ok ()
            else .assertFail (.validationError (eng.lastError s)))) := by
  refine ⟨⟨rfl, rfl, rfl⟩, ?_, ?_, ?_, ?_, ?_, ?_, ?_⟩
  · intro s
    refine ⟨?_, ?_, ?_⟩ <;>
      simp [assertXmlValidDTD, assertXmlValidXSchema, assertXmlValidRelaxNG,
        validateWithSchema_some]
  · intro str s h
    simp [assertXmlValidDTD, h, validateWithSchema_some]
  · intro str s h
    simp [assertXmlValidXSchema, h, validateWithSchema_some]
  · intro str s h
    simp [assertXmlValidRelaxNG, h, validateWithSchema_some]
  · intro f s h
    simp [assertXmlValidDTD, validateWithSchema_file _ eng node f _ s h]
  · intro f s h
    simp [assertXmlValidXSchema, validateWithSchema_file _ eng node f _ s h]
  · intro f s h
    simp [assertXmlValidRelaxNG, validateWithSchema_file _ eng node f _ s h]

/-- Witness for assertXmlValid_schema_spec on the sample schema oracle:
the ValueError cases, a validating DTD object, and a failing XMLSchema
object. -/
theorem assertXmlValid_schema_spec_witness :
    (assertXmlValidDTD egSchemaEngine egNode .absent none).1
      = .valueError "No valid DTD given."
    ∧ (assertXmlValidDTD egSchemaEngine egNode (.schemaObj 1) none).1 = .ok ()
    ∧ (assertXmlValidXSchema egSchemaEngine egNode (.schemaObj 2) none).1
      = .assertFail (.validationError "schema 2 failed") := by
  refine ⟨(assertXmlValid_schema_spec egSchemaEngine egNode none).1.1, ?_, ?_⟩
  · have h := ((assertXmlValid_schema_spec egSchemaEngine egNode none).2.1 1).1
    rw [h]
    decide
  · have h := ((assertXmlValid_schema_spec egSchemaEngine egNode none).2.1 2).2.1
    rw [h]
    decide

/-- C10: when a schema argument (object or string) is supplied together with
a filename, the schema argument wins and the file is never opened; the
filename is only consulted when the schema argument is None. -/
theorem schema_argument_precedence (eng : SchemaEngine) (node : Node)
    (arg : SchemaArg) (fn : Option String) (h : arg ≠ .absent) :
    (assertXmlValidDTD eng node arg fn).2 = false
    ∧ (assertXmlValidXSchema eng node arg fn).2 = false
    ∧ (assertXmlValidRelaxNG eng node arg fn).2 = false := by
  rcases arg with _ | s | str
  · exact absurd rfl h
  · refine ⟨?_, ?_, ?_⟩ <;>
      simp [assertXmlValidDTD, assertXmlValidXSchema, assertXmlValidRelaxNG,
        validateWithSchema_some]
  · refine ⟨?_, ?_, ?_⟩
    · rcases hp : eng.parseDTD str with e | s <;>
        simp [assertXmlValidDTD, hp, validateWithSchema_some]
    · rcases hp : eng.parseXSchema str with e | s <;>
        simp [assertXmlValidXSchema, hp, validateWithSchema_some]
    · rcases hp : eng.parseRelaxNG str with e | s <;>
        simp [assertXmlValidRelaxNG, hp, validateWithSchema_some]

/-- Witness for schema_argument_precedence: with a DTD object given together
with a filename, the file is not opened. -/
theorem schema_argument_precedence_witness :
    (assertXmlValidDTD egSchemaEngine egNode (.schemaObj 1) (some "file.dtd")).2
      = false := by
  exact (schema_argument_precedence egSchemaEngine egNode (.schemaObj 1)
    (some "file.dtd") (by decide)).1

lemma applyOp_readonly (node : Node) :
    ∀ op ∈ xmlTestMixinNodeOps, applyOp node op = node := by
  intro op hop
  fin_cases hop <;> rfl

/-- C9: every lxml primitive that a node-taking assertion method of
XmlTestMixin applies to the node it receives is a read; therefore any
sequence of primitives drawn from those method bodies, whether the
assertion passes or fails, leaves the node (tag, text, attributes, children
count and declared namespaces) unchanged. -/
theorem xmlTestMixin_no_mutation (node : Node) (ops : List LxmlOp)
    (h : ∀ op ∈ ops, op ∈ xmlTestMixinNodeOps) :
    ops.foldl applyOp node = node := by
  revert h
  induction ops with
  | nil => intro _; rfl
  | cons op rest ih =>
    intro h
    have h1 : applyOp node op = node :=
      applyOp_readonly node op (h op (List.mem_cons_self op rest))
    rw [List.foldl_cons, h1]
    exact ih fun o ho => h o (List.mem_cons_of_mem op ho)

/-- Witness for xmlTestMixin_no_mutation at a concrete node and a concrete
trace of primitives taken from the assertion bodies. -/
theorem xmlTestMixin_no_mutation_witness :
    (∀ op ∈ ([.readNsmap, .compileXPath, .evalXPath, .tostringNode,
        .validateNode] : List LxmlOp), op ∈ xmlTestMixinNodeOps)
    ∧ ([LxmlOp.readNsmap, .compileXPath, .evalXPath, .tostringNode,
        .validateNode] : List LxmlOp).foldl applyOp egNode = egNode := by
  refine ⟨by decide, ?_⟩
  exact xmlTestMixin_no_mutation egNode
    [.readNsmap, .compileXPath, .evalXPath, .tostringNode, .validateNode]
    (by decide)
